import Mathlib

/-!
Shallow embedding of the travel-plan web application (src/app.py) and proofs
about its CRUD contract.  The SQLite tables become Lean lists kept in insertion
(rowid) order, SQL queries become filters and sorts over those lists, the Flask
route handlers become pure functions from a database state and a request to a
response and a new state, and Python exceptions (ValueError from int()/float(),
KeyError from dict indexing) become the serverError response / Option.none.
Numeric REAL amounts are modelled as rationals.
-/

/-- Row of the trips table (app.py lines 43-49): id, name, days and a
creation timestamp (modelled as a natural number). -/
structure Trip where
  id : Nat
  name : String
  days : Int
  created_at : Nat
deriving DecidableEq, Repr

/-- Row of the day_items table (app.py lines 53-62).  The expense_amount
column is REAL with default 0; the Python code guards against NULL with
`or 0` and COALESCE, so the model keeps it as an Option. -/
structure DayItem where
  id : Nat
  trip_id : Nat
  day_number : Int
  title : String
  map_link : Option String
  expense_name : Option String
  expense_amount : Option ℚ
deriving DecidableEq, Repr

/-- Value of one element of the list built by build_day_summaries
(the DaySummary dataclass, app.py lines 16-20). -/
structure DaySummary where
  day_number : Int
  items : List DayItem
  total : ℚ
deriving DecidableEq, Repr

/-- Whole database: both tables in insertion (rowid) order plus the
AUTOINCREMENT counters. -/
structure DBState where
  trips : List Trip
  items : List DayItem
  next_trip_id : Nat
  next_item_id : Nat
deriving DecidableEq, Repr

/-- Freshly initialised database (init_db on an absent file): empty tables,
AUTOINCREMENT ids starting at 1. -/
def initState : DBState := ⟨[], [], 1, 1⟩

/-- Model of the Python str.strip() method (no argument): remove leading and
trailing whitespace characters. -/
def pyStrip (s : String) : String :=
  String.mk (((s.data.dropWhile Char.isWhitespace).reverse.dropWhile
    Char.isWhitespace).reverse)

/-- Digit string to number; none models a ValueError on an empty or
non-digit sequence. -/
def digitsToNat (cs : List Char) : Option Nat :=
  match cs with
  | [] => none
  | _ =>
    if cs.all Char.isDigit then
      some (cs.foldl (fun n c => n * 10 + (c.toNat - 48)) 0)
    else none

/-- Model of the Python builtin int() on a string: surrounding whitespace is
stripped, an optional sign is followed by one or more ASCII digits; anything
else raises ValueError, modelled as none. -/
def pyIntOfString (s : String) : Option Int :=
  match (pyStrip s).toList with
  | '+' :: rest => (digitsToNat rest).map (fun n => (n : Int))
  | '-' :: rest => (digitsToNat rest).map (fun n => -(n : Int))
  | cs => (digitsToNat cs).map (fun n => (n : Int))

/-- Helper for pyFloatOfString: split a character list at the first dot. -/
def splitDot : List Char → List Char × Option (List Char)
  | [] => ([], none)
  | '.' :: rest => ([], some rest)
  | c :: rest =>
    let p := splitDot rest
    (c :: p.1, p.2)

/-- Model of the Python builtin float() on a string (decimal notation):
surrounding whitespace stripped, optional sign, digits with at most one dot,
at least one digit overall; anything else raises ValueError, modelled as
none.  The value is exact, as a rational. -/
def pyFloatOfString (s : String) : Option ℚ :=
  let signed : Bool × List Char :=
    match (pyStrip s).toList with
    | '+' :: rest => (false, rest)
    | '-' :: rest => (true, rest)
    | cs => (false, cs)
  let sgn : Int → Int := fun n => if signed.1 then -n else n
  let p := splitDot signed.2
  match p.2 with
  | none => (digitsToNat p.1).map (fun n => (mkRat (sgn n) 1 : ℚ))
  | some frac =>
    (digitsToNat (p.1 ++ frac)).map
      (fun n => (mkRat (sgn n) (10 ^ frac.length) : ℚ))

/-- Model of `int(request.form.get(key, "0") or 0)` (app.py lines 125, 158,
183): an absent field defaults to the string "0", an empty string is falsy
and becomes the integer 0, and any other string goes through int(). -/
def formInt (field : Option String) : Option Int :=
  let raw := field.getD "0"
  if raw = "" then some 0 else pyIntOfString raw

/-- Model of `float(request.form.get("expense_amount", "0") or 0)`
(app.py line 191). -/
def formFloat (field : Option String) : Option ℚ :=
  let raw := field.getD "0"
  if raw = "" then some 0 else pyFloatOfString raw

/-- Model of `request.form.get(key, "").strip() or None` (app.py lines
189-190): a value that is blank after trimming is stored as NULL. -/
def blankToNone (field : Option String) : Option String :=
  let t := pyStrip (field.getD "")
  if t = "" then none else some t

/-- Expense amount of an item with NULL read as 0, as in
`item["expense_amount"] or 0` (app.py line 92). -/
def itemAmount (it : DayItem) : ℚ := it.expense_amount.getD 0

/-- SQL `SELECT * FROM trips WHERE id = ?` followed by fetchone
(fetch_trip, app.py lines 69-73): first row in rowid order. -/
def findTrip (db : DBState) (trip_id : Nat) : Option Trip :=
  db.trips.find? (fun t => t.id == trip_id)

/-- Rows of day_items with the given trip_id, in rowid order
(the WHERE clause of the queries in app.py lines 79-80 and 99). -/
def tripItems (db : DBState) (trip_id : Nat) : List DayItem :=
  db.items.filter (fun it => it.trip_id == trip_id)

/-- Comparison used by `ORDER BY day_number ASC, id DESC` (app.py line 81). -/
def itemLE (a b : DayItem) : Bool :=
  decide (a.day_number < b.day_number ∨ (a.day_number = b.day_number ∧ b.id ≤ a.id))

/-- Comparison used by `ORDER BY created_at DESC, id DESC` (app.py line 115). -/
def tripLE (a b : Trip) : Bool :=
  decide (b.created_at < a.created_at ∨ (a.created_at = b.created_at ∧ b.id ≤ a.id))

/-- The query of build_day_summaries (app.py lines 77-84): items of the trip
ordered by day number ascending, then id descending. -/
def listItemsByTrip (db : DBState) (trip_id : Nat) : List DayItem :=
  (tripItems db trip_id).mergeSort itemLE

/-- The query of list_trips (app.py lines 114-116): all trips ordered by
creation time descending, then id descending. -/
def listTripRows (db : DBState) : List Trip :=
  db.trips.mergeSort tripLE

/-- The grouping loop of build_day_summaries (app.py lines 85-87): the dict
`items_by_day` has exactly the keys 1..days, modelled as a total function
that is empty off those keys; appending a row whose day_number is outside
1..days raises KeyError, modelled as none. -/
def groupByDay (days : Int) : List DayItem → (Int → List DayItem) → Option (Int → List DayItem)
  | [], acc => some acc
  | row :: rest, acc =>
    if 1 ≤ row.day_number ∧ row.day_number ≤ days then
      groupByDay days rest
        (fun d => if d = row.day_number then acc d ++ [row] else acc d)
    else none

/-- build_day_summaries (app.py lines 76-94): fetch the trip items sorted,
group them by day (KeyError, i.e. none, when a day number falls outside
1..days), then emit one DaySummary per day 1..days with the per-day
expense total. -/
def build_day_summaries (db : DBState) (trip_id : Nat) (days : Int) :
    Option (List DaySummary) :=
  (groupByDay days (listItemsByTrip db trip_id) (fun _ => [])).map
    (fun itemsByDay =>
      (List.range days.toNat).map (fun (i : Nat) =>
        let items := itemsByDay ((i : Int) + 1)
        ⟨(i : Int) + 1, items, (items.map itemAmount).sum⟩))

/-- calculate_trip_total (app.py lines 97-102): SQL SUM of expense_amount
over the trip items (NULL rows are skipped by SUM, and COALESCE turns an
empty SUM into 0). -/
def calculate_trip_total (db : DBState) (trip_id : Nat) : ℚ :=
  ((tripItems db trip_id).map itemAmount).sum

/-- Responses a route handler can produce: abort(404), abort(400), an
unhandled Python exception (Flask returns a 500), a redirect, or a rendered
page with the data passed to the template. -/
inductive Resp where
  | notFound
  | badRequest
  | serverError
  | redirectToTrip (version : Int) (trip_id : Nat)
  | redirectToList (version : Int)
  | listPage (trips : List Trip)
  | tripPage (trip : Trip) (summaries : List DaySummary) (total : ℚ)
deriving DecidableEq, Repr

/-- Version guard shared by every route (`if version not in (1, 2, 3)`). -/
def versionOK (version : Int) : Prop :=
  version = 1 ∨ version = 2 ∨ version = 3

instance (version : Int) : Decidable (versionOK version) := by
  unfold versionOK; infer_instance

/-- list_trips (app.py lines 110-117). -/
def list_trips (db : DBState) (version : Int) : Resp × DBState :=
  if versionOK version then (.listPage (listTripRows db), db)
  else (.notFound, db)

/-- create_trip (app.py lines 120-133).  The form fields name and days are
Option String (none models an absent field); now models CURRENT_TIMESTAMP. -/
def create_trip (db : DBState) (version : Int) (name days : Option String)
    (now : Nat) : Resp × DBState :=
  if versionOK version then
    match formInt days with
    | none => (.serverError, db)
    | some d =>
      if pyStrip (name.getD "") = "" ∨ d ≤ 0 then (.badRequest, db)
      else
        (.redirectToTrip version db.next_trip_id,
          ⟨db.trips ++ [⟨db.next_trip_id, pyStrip (name.getD ""), d, now⟩],
            db.items, db.next_trip_id + 1, db.next_item_id⟩)
  else (.notFound, db)

/-- view_trip (app.py lines 136-149): fetch the trip (404 when absent),
build the day summaries (an out-of-range item raises KeyError, modelled as
serverError), compute the trip total and render. -/
def view_trip (db : DBState) (version : Int) (trip_id : Nat) : Resp × DBState :=
  if versionOK version then
    match findTrip db trip_id with
    | none => (.notFound, db)
    | some trip =>
      match build_day_summaries db trip_id trip.days with
      | none => (.serverError, db)
      | some summaries =>
        (.tripPage trip summaries (calculate_trip_total db trip_id), db)
  else (.notFound, db)

/-- edit_trip (app.py lines 152-166): fetch the trip, validate like create,
then UPDATE name and days of every row with that id. -/
def edit_trip (db : DBState) (version : Int) (trip_id : Nat)
    (name days : Option String) : Resp × DBState :=
  if versionOK version then
    match findTrip db trip_id with
    | none => (.notFound, db)
    | some _ =>
      match formInt days with
      | none => (.serverError, db)
      | some d =>
        if pyStrip (name.getD "") = "" ∨ d ≤ 0 then (.badRequest, db)
        else
          (.redirectToTrip version trip_id,
            ⟨db.trips.map (fun t =>
                if t.id = trip_id then
                  ⟨t.id, pyStrip (name.getD ""), d, t.created_at⟩
                else t),
              db.items, db.next_trip_id, db.next_item_id⟩)
  else (.notFound, db)

/-- delete_trip (app.py lines 169-175): DELETE FROM trips WHERE id = ?,
with ON DELETE CASCADE (and PRAGMA foreign_keys = ON) removing every
day_items row of that trip. -/
def delete_trip (db : DBState) (version : Int) (trip_id : Nat) : Resp × DBState :=
  if versionOK version then
    (.redirectToList version,
      ⟨db.trips.filter (fun t => !(t.id == trip_id)),
        db.items.filter (fun it => !(it.trip_id == trip_id)),
        db.next_trip_id, db.next_item_id⟩)
  else (.notFound, db)

/-- add_item (app.py lines 178-200): fetch the trip, parse and bound-check
day_number, check the trimmed title, blank optional fields to NULL, parse
expense_amount, INSERT. -/
def add_item (db : DBState) (version : Int) (trip_id : Nat)
    (day_number title map_link expense_name expense_amount : Option String) :
    Resp × DBState :=
  if versionOK version then
    match findTrip db trip_id with
    | none => (.notFound, db)
    | some trip =>
      match formInt day_number with
      | none => (.serverError, db)
      | some d =>
        if d < 1 ∨ d > trip.days then (.badRequest, db)
        else
          if pyStrip (title.getD "") = "" then (.badRequest, db)
          else
            match formFloat expense_amount with
            | none => (.serverError, db)
            | some amt =>
              (.redirectToTrip version trip_id,
                ⟨db.trips,
                  db.items ++ [⟨db.next_item_id, trip_id, d,
                    pyStrip (title.getD ""), blankToNone map_link,
                    blankToNone expense_name, some amt⟩],
                  db.next_trip_id, db.next_item_id + 1⟩)
  else (.notFound, db)

/-- delete_item (app.py lines 203-210): fetch the trip (404 when absent),
then DELETE FROM day_items WHERE id = ?. -/
def delete_item (db : DBState) (version : Int) (trip_id item_id : Nat) :
    Resp × DBState :=
  if versionOK version then
    match findTrip db trip_id with
    | none => (.notFound, db)
    | some _ =>
      (.redirectToTrip version trip_id,
        ⟨db.trips, db.items.filter (fun it => !(it.id == item_id)),
          db.next_trip_id, db.next_item_id⟩)
  else (.notFound, db)

/-- One HTTP request to the application, with its route parameters and form
fields (none models an absent form field; now models CURRENT_TIMESTAMP). -/
inductive Req where
  | listTrips (version : Int)
  | createTrip (version : Int) (name days : Option String) (now : Nat)
  | viewTrip (version : Int) (trip_id : Nat)
  | editTrip (version : Int) (trip_id : Nat) (name days : Option String)
  | deleteTrip (version : Int) (trip_id : Nat)
  | addItem (version : Int) (trip_id : Nat)
      (day_number title map_link expense_name expense_amount : Option String)
  | deleteItem (version : Int) (trip_id item_id : Nat)
deriving DecidableEq, Repr

/-- Version path segment of a request. -/
def Req.version : Req → Int
  | .listTrips v => v
  | .createTrip v _ _ _ => v
  | .viewTrip v _ => v
  | .editTrip v _ _ _ => v
  | .deleteTrip v _ => v
  | .addItem v _ _ _ _ _ _ => v
  | .deleteItem v _ _ => v

/-- Dispatch of a request to its route handler. -/
def handle (db : DBState) : Req → Resp × DBState
  | .listTrips v => list_trips db v
  | .createTrip v name days now => create_trip db v name days now
  | .viewTrip v tid => view_trip db v tid
  | .editTrip v tid name days => edit_trip db v tid name days
  | .deleteTrip v tid => delete_trip db v tid
  | .addItem v tid dn title ml en ea => add_item db v tid dn title ml en ea
  | .deleteItem v tid iid => delete_item db v tid iid

/-- Trip used by the C1 counterexample: a 1-day trip whose single item
carries day number 2. -/
def ceDB : DBState :=
  ⟨[⟨7, "X", 1, 0⟩], [⟨1, 7, 2, "X", none, none, some 5⟩], 8, 2⟩

/-- Requests leading to a stale state: create a 3-day trip, add an item on
day 3, then edit the trip down to 1 day. -/
def staleReq1 : Req := .createTrip 1 (some "Tokyo") (some "3") 0

/-- Second request of the stale scenario. -/
def staleReq2 : Req := .addItem 1 1 (some "3") (some "Beach") none none (some "10")

/-- Third request of the stale scenario. -/
def staleReq3 : Req := .editTrip 1 1 (some "Tokyo") (some "1")

/-- The stale database those three requests produce: the trip now declares
1 day but its item still carries day number 3. -/
def staleState : DBState :=
  ⟨[⟨1, "Tokyo", 1, 0⟩], [⟨1, 1, 3, "Beach", none, none, some 10⟩], 2, 2⟩

/-- The trip row of the stale database. -/
def staleTrip : Trip := ⟨1, "Tokyo", 1, 0⟩

/-- Requests leading to a small healthy state used by witnesses. -/
def wReq1 : Req := .createTrip 1 (some "Tokyo") (some "2") 5

/-- Second request of the healthy scenario. -/
def wReq2 : Req := .addItem 1 1 (some "1") (some "Airport") none none (some "12")

/-- The healthy database those two requests produce. -/
def wDB : DBState :=
  ⟨[⟨1, "Tokyo", 2, 5⟩], [⟨1, 1, 1, "Airport", none, none, some 12⟩], 2, 2⟩

/-- The trip row of the healthy database. -/
def wTrip : Trip := ⟨1, "Tokyo", 2, 5⟩

/-- States of the store reachable from a fresh database through the public
HTTP operations. -/
inductive Reachable : DBState → Prop
  | init : Reachable initState
  | step {db : DBState} (r : Req) : Reachable db → Reachable (handle db r).2

/-! Section: basic facts about the comparison functions and the grouping loop -/

theorem itemLE_trans (a b c : DayItem) (hab : itemLE a b = true)
    (hbc : itemLE b c = true) : itemLE a c = true := by
  simp only [itemLE, decide_eq_true_eq] at *
  omega

theorem itemLE_total (a b : DayItem) : (itemLE a b || itemLE b a) = true := by
  simp only [itemLE, Bool.or_eq_true, decide_eq_true_eq]
  omega

theorem tripLE_trans (a b c : Trip) (hab : tripLE a b = true)
    (hbc : tripLE b c = true) : tripLE a c = true := by
  simp only [tripLE, decide_eq_true_eq] at *
  omega

theorem tripLE_total (a b : Trip) : (tripLE a b || tripLE b a) = true := by
  simp only [tripLE, Bool.or_eq_true, decide_eq_true_eq]
  omega

theorem mem_listItemsByTrip {db : DBState} {tid : Nat} {it : DayItem} :
    it ∈ listItemsByTrip db tid ↔ it ∈ db.items ∧ it.trip_id = tid := by
  unfold listItemsByTrip tripItems
  rw [List.mem_mergeSort, List.mem_filter]
  simp

theorem groupByDay_isSome_iff (days : Int) (rows : List DayItem) :
    ∀ acc : Int → List DayItem,
      (groupByDay days rows acc).isSome = true ↔
        ∀ it ∈ rows, 1 ≤ it.day_number ∧ it.day_number ≤ days := by
  induction rows with
  | nil => intro acc; simp [groupByDay]
  | cons row rest ih =>
    intro acc
    by_cases hr : 1 ≤ row.day_number ∧ row.day_number ≤ days
    · simp only [groupByDay, if_pos hr, ih, List.forall_mem_cons]
      exact ⟨fun h => ⟨hr, h⟩, fun h => h.2⟩
    · simp only [groupByDay, if_neg hr, List.forall_mem_cons]
      simp only [Option.isSome_none, Bool.false_eq_true, false_iff]
      intro h
      exact hr h.1

theorem groupByDay_apply (days : Int) (rows : List DayItem) :
    ∀ (acc f : Int → List DayItem),
      groupByDay days rows acc = some f →
      ∀ d : Int, f d = acc d ++ rows.filter (fun r => r.day_number == d) := by
  induction rows with
  | nil =>
    intro acc f hf d
    simp only [groupByDay, Option.some.injEq] at hf
    subst hf
    simp
  | cons row rest ih =>
    intro acc f hf d
    by_cases hr : 1 ≤ row.day_number ∧ row.day_number ≤ days
    · rw [groupByDay, if_pos hr] at hf
      have h2 := ih _ f hf d
      rw [h2, List.filter_cons]
      by_cases hd : d = row.day_number
      · rw [if_pos hd, if_pos (show (row.day_number == d) = true by simp [hd])]
        simp [List.append_assoc]
      · rw [if_neg hd,
          if_neg (show ¬(row.day_number == d) = true by simp [Ne.symm hd])]
    · rw [groupByDay, if_neg hr] at hf
      exact absurd hf (by simp)

/-! Section: characterisation of build_day_summaries -/

theorem build_isSome_iff (db : DBState) (tid : Nat) (days : Int) :
    (build_day_summaries db tid days).isSome = true ↔
      ∀ it ∈ db.items, it.trip_id = tid →
        1 ≤ it.day_number ∧ it.day_number ≤ days := by
  unfold build_day_summaries
  rw [Option.isSome_map', groupByDay_isSome_iff]
  constructor
  · intro h it hmem htid
    exact h it (mem_listItemsByTrip.mpr ⟨hmem, htid⟩)
  · intro h it hmem
    obtain ⟨h1, h2⟩ := mem_listItemsByTrip.mp hmem
    exact h it h1 h2

theorem build_eq_of_range (db : DBState) (tid : Nat) (days : Int)
    (h : ∀ it ∈ listItemsByTrip db tid,
      1 ≤ it.day_number ∧ it.day_number ≤ days) :
    build_day_summaries db tid days =
      some ((List.range days.toNat).map (fun (i : Nat) =>
        ⟨(i : Int) + 1,
          (listItemsByTrip db tid).filter (fun r => r.day_number == (i : Int) + 1),
          (((listItemsByTrip db tid).filter
              (fun r => r.day_number == (i : Int) + 1)).map itemAmount).sum⟩)) := by
  obtain ⟨f, hf⟩ := Option.isSome_iff_exists.mp
    (((groupByDay_isSome_iff days (listItemsByTrip db tid)) (fun _ => [])).mpr h)
  have happ := groupByDay_apply days (listItemsByTrip db tid) (fun _ => []) f hf
  unfold build_day_summaries
  rw [hf, Option.map_some']
  congr 1
  apply List.map_congr_left
  intro i _
  have hfi := happ ((i : Int) + 1)
  rw [List.nil_append] at hfi
  simp only [hfi]

/-! Section: summation lemmas for the aggregation agreement -/

theorem sum_ite_range (d : Int) (a : ℚ) :
    ∀ n : Nat, ((List.range n).map (fun (i : Nat) => if d = (i : Int) + 1 then a else 0)).sum =
      if 1 ≤ d ∧ d ≤ (n : Int) then a else 0 := by
  intro n
  induction n with
  | zero =>
    rw [List.range_zero, List.map_nil, List.sum_nil, if_neg (by omega)]
  | succ n ih =>
    rw [List.range_succ, List.map_append, List.sum_append, ih]
    simp only [List.map_cons, List.map_nil, List.sum_cons, List.sum_nil, add_zero]
    by_cases hd : d = (n : Int) + 1
    · rw [if_pos hd, if_neg (by omega), if_pos (by omega), zero_add]
    · rw [if_neg hd]
      by_cases h2 : 1 ≤ d ∧ d ≤ (n : Int)
      · rw [if_pos h2, if_pos (by omega), add_zero]
      · rw [if_neg h2, if_neg (by omega), add_zero]

theorem sum_partition (n : Nat) (rows : List DayItem)
    (h : ∀ it ∈ rows, 1 ≤ it.day_number ∧ it.day_number ≤ (n : Int)) :
    ((List.range n).map (fun (i : Nat) =>
        ((rows.filter (fun r => r.day_number == (i : Int) + 1)).map itemAmount).sum)).sum =
      (rows.map itemAmount).sum := by
  induction rows with
  | nil => simp
  | cons r rest ih =>
    have hr := h r (List.mem_cons_self r rest)
    have hrest := fun it hit => h it (List.mem_cons_of_mem r hit)
    have hterm : ∀ i : Nat,
        (((r :: rest).filter (fun x => x.day_number == (i : Int) + 1)).map itemAmount).sum =
          (if r.day_number = (i : Int) + 1 then itemAmount r else 0) +
            ((rest.filter (fun x => x.day_number == (i : Int) + 1)).map itemAmount).sum := by
      intro i
      rw [List.filter_cons]
      by_cases hc : r.day_number = (i : Int) + 1
      · rw [if_pos (show (r.day_number == (i : Int) + 1) = true by simp [hc]), if_pos hc]
        simp
      · rw [if_neg (show ¬(r.day_number == (i : Int) + 1) = true by simp [hc]), if_neg hc]
        rw [zero_add]
    calc ((List.range n).map (fun (i : Nat) =>
            (((r :: rest).filter (fun x => x.day_number == (i : Int) + 1)).map itemAmount).sum)).sum
        = ((List.range n).map (fun (i : Nat) =>
            (if r.day_number = (i : Int) + 1 then itemAmount r else 0) +
              ((rest.filter (fun x => x.day_number == (i : Int) + 1)).map itemAmount).sum)).sum := by
          rw [List.map_congr_left (fun i _ => hterm i)]
      _ = ((List.range n).map (fun (i : Nat) =>
              if r.day_number = (i : Int) + 1 then itemAmount r else 0)).sum +
            ((List.range n).map (fun (i : Nat) =>
              ((rest.filter (fun x => x.day_number == (i : Int) + 1)).map itemAmount).sum)).sum := by
          rw [List.sum_map_add]
      _ = itemAmount r + (rest.map itemAmount).sum := by
          rw [sum_ite_range, if_pos hr, ih hrest]
      _ = ((r :: rest).map itemAmount).sum := by
          rw [List.map_cons, List.sum_cons]

/-! Section: referential integrity along reachable states -/

/-- Every day item points at an existing trip (the FOREIGN KEY constraint
of the schema, app.py line 61). -/
def refIntact (db : DBState) : Prop :=
  ∀ it ∈ db.items, ∃ t ∈ db.trips, t.id = it.trip_id

theorem list_trips_state (db : DBState) (v : Int) : (list_trips db v).2 = db := by
  unfold list_trips
  split <;> rfl

theorem view_trip_state (db : DBState) (v : Int) (tid : Nat) :
    (view_trip db v tid).2 = db := by
  unfold view_trip
  split
  · split
    · rfl
    · split <;> rfl
  · rfl

theorem refIntact_handle (db : DBState) (r : Req) (h : refIntact db) :
    refIntact (handle db r).2 := by
  cases r with
  | listTrips v =>
    show refIntact (list_trips db v).2
    rw [list_trips_state]
    exact h
  | viewTrip v tid =>
    show refIntact (view_trip db v tid).2
    rw [view_trip_state]
    exact h
  | createTrip v name days now =>
    show refIntact (create_trip db v name days now).2
    unfold create_trip
    split
    · rcases hdn : formInt days with _ | d
      all_goals simp only [hdn]
      · exact h
      · split
        · exact h
        · intro it hit
          obtain ⟨t, ht, hid⟩ := h it hit
          exact ⟨t, List.mem_append_left _ ht, hid⟩
    · exact h
  | editTrip v tid name days =>
    show refIntact (edit_trip db v tid name days).2
    unfold edit_trip
    split
    · rcases hft : findTrip db tid with _ | trip
      all_goals simp only [hft]
      · exact h
      · rcases hdn : formInt days with _ | d
        all_goals simp only [hdn]
        · exact h
        · split
          · exact h
          · intro it hit
            obtain ⟨t, ht, hid⟩ := h it hit
            refine ⟨_, List.mem_map_of_mem _ ht, ?_⟩
            by_cases h1 : t.id = tid
            · rw [if_pos h1]; exact hid
            · rw [if_neg h1]; exact hid
    · exact h
  | deleteTrip v tid =>
    show refIntact (delete_trip db v tid).2
    unfold delete_trip
    split
    · intro it hit
      rw [List.mem_filter] at hit
      obtain ⟨hmem, hne⟩ := hit
      obtain ⟨t, ht, hid⟩ := h it hmem
      refine ⟨t, ?_, hid⟩
      rw [List.mem_filter]
      refine ⟨ht, ?_⟩
      simpa [hid] using hne
    · exact h
  | addItem v tid dn title ml en ea =>
    show refIntact (add_item db v tid dn title ml en ea).2
    unfold add_item
    split
    · rcases hft : findTrip db tid with _ | trip
      all_goals simp only [hft]
      · exact h
      · rcases hdn : formInt dn with _ | d
        all_goals simp only [hdn]
        · exact h
        · split
          · exact h
          · split
            · exact h
            · rcases hea : formFloat ea with _ | amt
              all_goals simp only [hea]
              · exact h
              · intro it hit
                rw [List.mem_append] at hit
                rcases hit with hit | hit
                · obtain ⟨t, ht, hid⟩ := h it hit
                  exact ⟨t, ht, hid⟩
                · rw [List.mem_singleton] at hit
                  subst hit
                  have hmem := List.mem_of_find?_eq_some hft
                  have hbeq := List.find?_some hft
                  simp only [beq_iff_eq] at hbeq
                  exact ⟨trip, hmem, hbeq⟩
    · exact h
  | deleteItem v tid iid =>
    show refIntact (delete_item db v tid iid).2
    unfold delete_item
    split
    · rcases hft : findTrip db tid with _ | trip
      all_goals simp only [hft]
      · exact h
      · intro it hit
        rw [List.mem_filter] at hit
        exact h it hit.1
    · exact h

theorem reachable_refIntact {db : DBState} (h : Reachable db) : refIntact db := by
  induction h with
  | init => intro it hit; exact absurd hit (List.not_mem_nil it)
  | step r _ ih => exact refIntact_handle _ r ih

/-! Section: claim C1: shape and content of the day summaries -/

/-- C1 (amended: the items of the trip are additionally required to carry
day numbers within 1..d, since an out-of-range item makes the builder raise
KeyError instead of returning summaries): for every day count d ≥ 1,
build_day_summaries returns exactly d summaries; the summary at index i is
for day i+1, its item sequence holds exactly the trip items of that day
(the sorted fetch order, a permutation of the filtered table rows), and its
total sums the expense amounts of those items with absent amounts read
as 0. -/
theorem build_day_summaries_per_day (db : DBState) (tid : Nat) (d : Int)
    (hd : 1 ≤ d)
    (hrange : ∀ it ∈ db.items, it.trip_id = tid →
      1 ≤ it.day_number ∧ it.day_number ≤ d) :
    ∃ ss : List DaySummary, build_day_summaries db tid d = some ss ∧
      ss.length = d.toNat ∧
      ∀ (i : Nat) (hi : i < ss.length),
        (ss.get ⟨i, hi⟩).day_number = (i : Int) + 1 ∧
        (ss.get ⟨i, hi⟩).items =
          (listItemsByTrip db tid).filter (fun r => r.day_number == (i : Int) + 1) ∧
        ((ss.get ⟨i, hi⟩).items).Perm
          ((db.items.filter (fun it => it.trip_id == tid)).filter
            (fun r => r.day_number == (i : Int) + 1)) ∧
        (ss.get ⟨i, hi⟩).total = (((ss.get ⟨i, hi⟩).items).map itemAmount).sum := by
  have hrows : ∀ it ∈ listItemsByTrip db tid,
      1 ≤ it.day_number ∧ it.day_number ≤ d := by
    intro it hit
    obtain ⟨h1, h2⟩ := mem_listItemsByTrip.mp hit
    exact hrange it h1 h2
  refine ⟨_, build_eq_of_range db tid d hrows, by simp, ?_⟩
  intro i hi
  simp only [List.get_eq_getElem, List.getElem_map,
    List.getElem_range]
  refine ⟨trivial, trivial, ?_, trivial⟩
  exact (List.mergeSort_perm (tripItems db tid) itemLE).filter _

/-- C1 witness: the amended theorem applied to a concrete 2-day trip with
one item on day 1. -/
theorem build_day_summaries_per_day_witness :
    ((1 : Int) ≤ 2 ∧ (∀ it ∈ wDB.items, it.trip_id = 1 →
        1 ≤ it.day_number ∧ it.day_number ≤ 2)) ∧
    (∃ ss : List DaySummary, build_day_summaries wDB 1 2 = some ss ∧
      ss.length = (2 : Int).toNat ∧
      ∀ (i : Nat) (hi : i < ss.length),
        (ss.get ⟨i, hi⟩).day_number = (i : Int) + 1 ∧
        (ss.get ⟨i, hi⟩).items =
          (listItemsByTrip wDB 1).filter (fun r => r.day_number == (i : Int) + 1) ∧
        ((ss.get ⟨i, hi⟩).items).Perm
          ((wDB.items.filter (fun it => it.trip_id == 1)).filter
            (fun r => r.day_number == (i : Int) + 1)) ∧
        (ss.get ⟨i, hi⟩).total = (((ss.get ⟨i, hi⟩).items).map itemAmount).sum) :=
  ⟨⟨by decide, by decide⟩,
    build_day_summaries_per_day wDB 1 2 (by decide) (by decide)⟩

/-- C1 counterexample: the claim as stated fails on a 1-day trip whose item
list holds an item with day number 2; instead of one summary the builder
raises KeyError (none), so it does not return d summaries for every list of
the items of the trip. -/
theorem build_day_summaries_out_of_range_item :
    build_day_summaries ceDB 7 1 = none := by
  apply Option.not_isSome_iff_eq_none.mp
  rw [build_isSome_iff]
  decide

/-! Section: claim C2: the two aggregations agree -/

theorem staleState_reachable : Reachable staleState := by
  have h3 := Reachable.step staleReq3
    (Reachable.step staleReq2 (Reachable.step staleReq1 Reachable.init))
  have he : (handle (handle (handle initState staleReq1).2 staleReq2).2
      staleReq3).2 = staleState := by decide
  exact he ▸ h3

theorem wDB_reachable : Reachable wDB := by
  have h2 := Reachable.step wReq2 (Reachable.step wReq1 Reachable.init)
  have he : (handle (handle initState wReq1).2 wReq2).2 = wDB := by decide
  exact he ▸ h2

theorem stale_build_none : build_day_summaries staleState 1 1 = none := by
  apply Option.not_isSome_iff_eq_none.mp
  rw [build_isSome_iff]
  decide

/-- C2 (amended: the agreement additionally requires every item of the trip
to carry a day number within 1..trip.days; on a reachable state where an
edit shrank the day count below the day number of an existing item, the summary
builder fails instead, see the counterexample): for every state - reachable
ones included - the trip total is the sum of the expense amounts over all
the items of the trip, and it equals the sum of the per-day totals of
build_day_summaries. -/
theorem trip_total_agrees_with_day_totals (db : DBState) (trip : Trip)
    (htrip : trip ∈ db.trips)
    (hrange : ∀ it ∈ db.items, it.trip_id = trip.id →
      1 ≤ it.day_number ∧ it.day_number ≤ trip.days) :
    calculate_trip_total db trip.id =
      ((db.items.filter (fun it => it.trip_id == trip.id)).map itemAmount).sum ∧
    ∃ ss : List DaySummary,
      build_day_summaries db trip.id trip.days = some ss ∧
      (ss.map DaySummary.total).sum = calculate_trip_total db trip.id := by
  refine ⟨rfl, ?_⟩
  have hrows : ∀ it ∈ listItemsByTrip db trip.id,
      1 ≤ it.day_number ∧ it.day_number ≤ trip.days := by
    intro it hit
    obtain ⟨h1, h2⟩ := mem_listItemsByTrip.mp hit
    exact hrange it h1 h2
  refine ⟨_, build_eq_of_range db trip.id trip.days hrows, ?_⟩
  rw [List.map_map]
  have hn : ∀ it ∈ listItemsByTrip db trip.id,
      1 ≤ it.day_number ∧ it.day_number ≤ ((trip.days.toNat : Nat) : Int) := by
    intro it hit
    exact ⟨(hrows it hit).1, le_trans (hrows it hit).2 (Int.self_le_toNat _)⟩
  have hpart := sum_partition trip.days.toNat (listItemsByTrip db trip.id) hn
  calc ((List.range trip.days.toNat).map (DaySummary.total ∘ fun (i : Nat) =>
          (⟨(i : Int) + 1,
            (listItemsByTrip db trip.id).filter
              (fun r => r.day_number == (i : Int) + 1),
            (((listItemsByTrip db trip.id).filter
                (fun r => r.day_number == (i : Int) + 1)).map itemAmount).sum⟩ :
            DaySummary))).sum
      = ((List.range trip.days.toNat).map (fun (i : Nat) =>
          (((listItemsByTrip db trip.id).filter
              (fun r => r.day_number == (i : Int) + 1)).map itemAmount).sum)).sum := rfl
    _ = ((listItemsByTrip db trip.id).map itemAmount).sum := hpart
    _ = calculate_trip_total db trip.id :=
        ((List.mergeSort_perm (tripItems db trip.id) itemLE).map itemAmount).sum_eq

/-- C2 witness: the amended theorem applied to a concrete 2-day trip with
one item on day 1. -/
theorem trip_total_agrees_with_day_totals_witness :
    (wTrip ∈ wDB.trips ∧ (∀ it ∈ wDB.items, it.trip_id = wTrip.id →
        1 ≤ it.day_number ∧ it.day_number ≤ wTrip.days)) ∧
    (calculate_trip_total wDB wTrip.id =
      ((wDB.items.filter (fun it => it.trip_id == wTrip.id)).map itemAmount).sum ∧
    ∃ ss : List DaySummary,
      build_day_summaries wDB wTrip.id wTrip.days = some ss ∧
      (ss.map DaySummary.total).sum = calculate_trip_total wDB wTrip.id) :=
  ⟨⟨by decide, by decide⟩,
    trip_total_agrees_with_day_totals wDB wTrip (by decide) (by decide)⟩

/-- C2 counterexample: the claim as stated is false: staleState is reachable
(create a 3-day trip, add an item on day 3, edit the trip down to 1 day),
its trip row declares 1 day, and build_day_summaries fails with KeyError
(none), so no per-day totals exist to agree with the trip total. -/
theorem aggregation_fails_on_stale_state :
    Reachable staleState ∧ staleTrip ∈ staleState.trips ∧
      build_day_summaries staleState staleTrip.id staleTrip.days = none := by
  exact ⟨staleState_reachable, by decide, stale_build_none⟩

/-! Section: claim C3: handling of malformed numeric form fields -/

theorem formInt_default (fld : Option String)
    (hf : fld = none ∨ fld = some "") : formInt fld = some 0 := by
  rcases hf with h | h <;> subst h <;> rfl

theorem formFloat_default (fld : Option String)
    (hf : fld = none ∨ fld = some "") : formFloat fld = some 0 := by
  rcases hf with h | h <;> subst h <;> rfl

/-- C3 (amended: only an absent or empty-string numeric field is treated as
zero/default - the request then behaves exactly as if the field were "0",
and is rejected only when that zero fails a validity check; a non-empty
value that int() or float() cannot parse instead raises an unhandled
ValueError, answered as a server error with no mutation, rather than being
treated as zero).  The last three conjuncts settle the error path for each
of the three numeric fields: days of create_trip, and day_number and
expense_amount of add_item (the latter needs an existing trip, an in-range
day number and a non-blank title, because add_item only reaches float()
after those checks). -/
theorem empty_numeric_fields_default (db : DBState) (v : Int)
    (name title ml en ea dn : Option String) (now tid : Nat) (trip : Trip)
    (fld good : Option String) (bad badf : String) (d : Int)
    (hf : fld = none ∨ fld = some "")
    (hbad : pyIntOfString bad = none) (hbe : ¬ bad = "")
    (hbadf : pyFloatOfString badf = none) (hbfe : ¬ badf = "")
    (hv : versionOK v) (htrip : findTrip db tid = some trip)
    (hgood : formInt good = some d) (hdr : ¬ (d < 1 ∨ d > trip.days))
    (htl : ¬ pyStrip (title.getD "") = "") :
    create_trip db v name fld now = create_trip db v name (some "0") now ∧
    add_item db v tid fld title ml en ea =
      add_item db v tid (some "0") title ml en ea ∧
    add_item db v tid dn title ml en fld =
      add_item db v tid dn title ml en (some "0") ∧
    create_trip db v name (some bad) now = (Resp.serverError, db) ∧
    add_item db v tid (some bad) title ml en ea = (Resp.serverError, db) ∧
    add_item db v tid good title ml en (some badf) = (Resp.serverError, db) := by
  have hbadInt : formInt (some bad) = none := by
    unfold formInt
    simp only [Option.getD_some]
    rw [if_neg hbe]
    exact hbad
  have hbadFloat : formFloat (some badf) = none := by
    unfold formFloat
    simp only [Option.getD_some]
    rw [if_neg hbfe]
    exact hbadf
  refine ⟨?_, ?_, ?_, ?_, ?_, ?_⟩
  · rcases hf with h | h <;> subst h <;> rfl
  · rcases hf with h | h <;> subst h <;> rfl
  · rcases hf with h | h <;> subst h <;> rfl
  · unfold create_trip
    rw [if_pos hv, hbadInt]
  · unfold add_item
    rw [if_pos hv, htrip, hbadInt]
  · unfold add_item
    rw [if_pos hv, htrip, hgood]
    simp only [if_neg hdr, if_neg htl]
    rw [hbadFloat]

/-- C3 witness: at version 1 on the reachable database wDB, an empty days,
day_number or expense_amount field behaves like "0" (and the zero is then
subject to the validity checks), while the non-numeric value "abc" in any
of the three fields produces the unhandled-error response with the state
unchanged. -/
theorem empty_numeric_fields_default_witness :
    (((some "" : Option String) = none ∨ (some "" : Option String) = some "") ∧
      pyIntOfString "abc" = none ∧ ¬ ("abc" = "") ∧
      pyFloatOfString "abc" = none ∧ ¬ ("abc" = "") ∧
      versionOK 1 ∧ findTrip wDB 1 = some wTrip ∧
      formInt (some "2") = some 2 ∧ ¬ ((2 : Int) < 1 ∨ (2 : Int) > wTrip.days) ∧
      ¬ pyStrip ((some "T").getD "") = "") ∧
    (create_trip wDB 1 (some "Tokyo") (some "") 0 =
        create_trip wDB 1 (some "Tokyo") (some "0") 0 ∧
      add_item wDB 1 1 (some "") (some "T") none none (some "1") =
        add_item wDB 1 1 (some "0") (some "T") none none (some "1") ∧
      add_item wDB 1 1 (some "1") (some "T") none none (some "") =
        add_item wDB 1 1 (some "1") (some "T") none none (some "0") ∧
      create_trip wDB 1 (some "Tokyo") (some "abc") 0 =
        (Resp.serverError, wDB) ∧
      add_item wDB 1 1 (some "abc") (some "T") none none (some "1") =
        (Resp.serverError, wDB) ∧
      add_item wDB 1 1 (some "2") (some "T") none none (some "abc") =
        (Resp.serverError, wDB)) :=
  ⟨⟨Or.inr rfl, by decide, by decide, by decide, by decide, by decide,
      by decide, by decide, by decide, by decide⟩,
    empty_numeric_fields_default wDB 1 (some "Tokyo") (some "T") none
      none (some "1") (some "1") 0 1 wTrip (some "") (some "2") "abc" "abc" 2
      (Or.inr rfl) (by decide) (by decide) (by decide) (by decide) (by decide)
      (by decide) (by decide) (by decide) (by decide)⟩

/-- C3 counterexample: a request whose days field holds the non-numeric
value "abc" is not treated as zero: int() raises ValueError and the request
dies with a server error, whereas the zero treatment would have produced
the invalid-input rejection that days "0" gets. -/
theorem nonnumeric_days_not_defaulted :
    (create_trip initState 1 (some "Tokyo") (some "abc") 0).1 = Resp.serverError ∧
    ¬ (Resp.serverError = Resp.badRequest) ∧
    (create_trip initState 1 (some "Tokyo") (some "0") 0).1 = Resp.badRequest := by
  decide

/-! Section: claim C4: create-trip validation -/

/-- C4: a create-trip request (at a recognised version, with a days field
int() can parse) is rejected with the invalid-input response exactly when
the trimmed name is empty or the parsed days value is non-positive; on
rejection the database is untouched, and on acceptance exactly one trip row
with the trimmed name and parsed days is appended. -/
theorem create_trip_validation (db : DBState) (v : Int)
    (name days : Option String) (now : Nat) (d : Int)
    (hv : versionOK v) (hd : formInt days = some d) :
    ((create_trip db v name days now).1 = Resp.badRequest ↔
      (pyStrip (name.getD "") = "" ∨ d ≤ 0)) ∧
    ((create_trip db v name days now).1 = Resp.badRequest →
      (create_trip db v name days now).2 = db) ∧
    (¬ (pyStrip (name.getD "") = "" ∨ d ≤ 0) →
      (create_trip db v name days now).1 = Resp.redirectToTrip v db.next_trip_id ∧
      (create_trip db v name days now).2.trips =
        db.trips ++ [⟨db.next_trip_id, pyStrip (name.getD ""), d, now⟩] ∧
      (create_trip db v name days now).2.items = db.items ∧
      (create_trip db v name days now).2.next_trip_id = db.next_trip_id + 1) := by
  unfold create_trip
  rw [if_pos hv, hd]
  by_cases hc : pyStrip (name.getD "") = "" ∨ d ≤ 0
  · simp only [if_pos hc]
    exact ⟨iff_of_true (by trivial) hc, fun _ => by trivial,
      fun hn => absurd hc hn⟩
  · simp only [if_neg hc]
    exact ⟨iff_of_false (fun h => Resp.noConfusion h) hc,
      fun h => absurd h (fun h => Resp.noConfusion h),
      fun _ => ⟨by trivial, by trivial, by trivial, by trivial⟩⟩

/-- C4 witness: creating the trip Tokyo with days "3" on the fresh database
is accepted and appends exactly that row; the same theorem also covers the
rejection of days "0" through its iff. -/
theorem create_trip_validation_witness :
    (versionOK 1 ∧ formInt (some "3") = some 3) ∧
    (((create_trip initState 1 (some "Tokyo") (some "3") 0).1 = Resp.badRequest ↔
      (pyStrip ((some "Tokyo").getD "") = "" ∨ (3 : Int) ≤ 0)) ∧
    ((create_trip initState 1 (some "Tokyo") (some "3") 0).1 = Resp.badRequest →
      (create_trip initState 1 (some "Tokyo") (some "3") 0).2 = initState) ∧
    (¬ (pyStrip ((some "Tokyo").getD "") = "" ∨ (3 : Int) ≤ 0) →
      (create_trip initState 1 (some "Tokyo") (some "3") 0).1 =
        Resp.redirectToTrip 1 initState.next_trip_id ∧
      (create_trip initState 1 (some "Tokyo") (some "3") 0).2.trips =
        initState.trips ++
          [⟨initState.next_trip_id, pyStrip ((some "Tokyo").getD ""), 3, 0⟩] ∧
      (create_trip initState 1 (some "Tokyo") (some "3") 0).2.items =
        initState.items ∧
      (create_trip initState 1 (some "Tokyo") (some "3") 0).2.next_trip_id =
        initState.next_trip_id + 1)) :=
  ⟨⟨by decide, by decide⟩,
    create_trip_validation initState 1 (some "Tokyo") (some "3") 0 3
      (by decide) (by decide)⟩

/-! Section: claim C5: add-item validation -/

/-- C5: an add-item request against an existing trip (recognised version,
parsable day number and expense amount) is rejected with the invalid-input
response exactly when the day number lies outside 1..trip.days or the
trimmed title is empty; on rejection the database is untouched, on
acceptance exactly one item row is appended, and the optional map link and
expense name are stored absent exactly when blank after trimming. -/
theorem add_item_validation (db : DBState) (v : Int) (tid : Nat) (trip : Trip)
    (dn title ml en ea : Option String) (d : Int) (amt : ℚ)
    (hv : versionOK v) (htrip : findTrip db tid = some trip)
    (hd : formInt dn = some d) (ha : formFloat ea = some amt) :
    ((add_item db v tid dn title ml en ea).1 = Resp.badRequest ↔
      (d < 1 ∨ d > trip.days ∨ pyStrip (title.getD "") = "")) ∧
    ((add_item db v tid dn title ml en ea).1 = Resp.badRequest →
      (add_item db v tid dn title ml en ea).2 = db) ∧
    (¬ (d < 1 ∨ d > trip.days ∨ pyStrip (title.getD "") = "") →
      (add_item db v tid dn title ml en ea).1 = Resp.redirectToTrip v tid ∧
      (add_item db v tid dn title ml en ea).2.items =
        db.items ++ [⟨db.next_item_id, tid, d, pyStrip (title.getD ""),
          blankToNone ml, blankToNone en, some amt⟩] ∧
      (add_item db v tid dn title ml en ea).2.trips = db.trips) ∧
    (∀ f : Option String, blankToNone f = none ↔ pyStrip (f.getD "") = "") := by
  have hblank : ∀ f : Option String,
      blankToNone f = none ↔ pyStrip (f.getD "") = "" := by
    intro f
    unfold blankToNone
    by_cases h : pyStrip (f.getD "") = ""
    · simp [h]
    · simp [h]
  unfold add_item
  rw [if_pos hv, htrip, hd]
  by_cases h1 : d < 1 ∨ d > trip.days
  · simp only [if_pos h1]
    exact ⟨iff_of_true (by trivial) (by tauto), fun _ => by trivial,
      fun hn => absurd (show d < 1 ∨ d > trip.days ∨ pyStrip (title.getD "") = ""
        by tauto) hn, hblank⟩
  · simp only [if_neg h1]
    by_cases h2 : pyStrip (title.getD "") = ""
    · simp only [if_pos h2]
      exact ⟨iff_of_true (by trivial) (by tauto), fun _ => by trivial,
        fun hn => absurd (show d < 1 ∨ d > trip.days ∨ pyStrip (title.getD "") = ""
          by tauto) hn, hblank⟩
    · simp only [if_neg h2, ha]
      exact ⟨iff_of_false (fun h => Resp.noConfusion h) (by tauto),
        fun h => absurd h (fun h => Resp.noConfusion h),
        fun _ => ⟨by trivial, by trivial, by trivial⟩, hblank⟩

/-- C5 witness: adding Dinner on day 2 with expense "2.5" to the 2-day trip
of wDB is accepted and appends exactly that row; the rejection side is
covered by the iff (for example day 5 on this 2-day trip satisfies the
right-hand side). -/
theorem add_item_validation_witness :
    (versionOK 1 ∧ findTrip wDB 1 = some wTrip ∧
      formInt (some "2") = some 2 ∧ formFloat (some "2.5") = some (mkRat 5 2)) ∧
    (((add_item wDB 1 1 (some "2") (some "Dinner") none none (some "2.5")).1 =
        Resp.badRequest ↔
      ((2 : Int) < 1 ∨ (2 : Int) > wTrip.days ∨
        pyStrip ((some "Dinner").getD "") = "")) ∧
    ((add_item wDB 1 1 (some "2") (some "Dinner") none none (some "2.5")).1 =
        Resp.badRequest →
      (add_item wDB 1 1 (some "2") (some "Dinner") none none (some "2.5")).2 =
        wDB) ∧
    (¬ ((2 : Int) < 1 ∨ (2 : Int) > wTrip.days ∨
        pyStrip ((some "Dinner").getD "") = "") →
      (add_item wDB 1 1 (some "2") (some "Dinner") none none (some "2.5")).1 =
        Resp.redirectToTrip 1 1 ∧
      (add_item wDB 1 1 (some "2") (some "Dinner") none none (some "2.5")).2.items =
        wDB.items ++ [⟨wDB.next_item_id, 1, 2, pyStrip ((some "Dinner").getD ""),
          blankToNone none, blankToNone none, some (mkRat 5 2)⟩] ∧
      (add_item wDB 1 1 (some "2") (some "Dinner") none none (some "2.5")).2.trips =
        wDB.trips) ∧
    (∀ f : Option String, blankToNone f = none ↔ pyStrip (f.getD "") = "")) :=
  ⟨⟨by decide, by decide, by decide, by decide⟩,
    add_item_validation wDB 1 1 wTrip (some "2") (some "Dinner") none none
      (some "2.5") 2 (mkRat 5 2) (by decide) (by decide) (by decide) (by decide)⟩

/-! Section: claim C6: unrecognised version selector -/

/-- C6: whatever the endpoint, a version path segment outside the recognised
set 1, 2, 3 terminates the request with the not-found response and leaves
the database exactly as it was - no validation, read or write is
observable. -/
theorem unknown_version_not_found (db : DBState) (r : Req)
    (hv : ¬ versionOK r.version) :
    handle db r = (Resp.notFound, db) := by
  cases r with
  | listTrips v =>
    show list_trips db v = _
    unfold list_trips
    exact if_neg hv
  | createTrip v name days now =>
    show create_trip db v name days now = _
    unfold create_trip
    exact if_neg hv
  | viewTrip v tid =>
    show view_trip db v tid = _
    unfold view_trip
    exact if_neg hv
  | editTrip v tid name days =>
    show edit_trip db v tid name days = _
    unfold edit_trip
    exact if_neg hv
  | deleteTrip v tid =>
    show delete_trip db v tid = _
    unfold delete_trip
    exact if_neg hv
  | addItem v tid dn title ml en ea =>
    show add_item db v tid dn title ml en ea = _
    unfold add_item
    exact if_neg hv
  | deleteItem v tid iid =>
    show delete_item db v tid iid = _
    unfold delete_item
    exact if_neg hv

/-- C6 witness: the version segment 9 is answered not-found on the fresh
database, which is left unchanged. -/
theorem unknown_version_not_found_witness :
    (¬ versionOK ((Req.listTrips 9).version)) ∧
    handle initState (Req.listTrips 9) = (Resp.notFound, initState) :=
  ⟨by decide, unknown_version_not_found initState (Req.listTrips 9) (by decide)⟩

/-! Section: claim C7: deleting a trip cascades to its items -/

/-- C7: on any reachable state, deleting a trip answers with the redirect to
the list view, removes the trip row, empties the item listing for that trip
id (the cascade), and leaves no day item pointing at a missing trip. -/
theorem delete_trip_cascades (db : DBState) (v : Int) (tid : Nat)
    (hv : versionOK v) (hreach : Reachable db) :
    handle db (Req.deleteTrip v tid) =
      (Resp.redirectToList v, (delete_trip db v tid).2) ∧
    (∀ t ∈ (delete_trip db v tid).2.trips, ¬ t.id = tid) ∧
    listItemsByTrip (delete_trip db v tid).2 tid = [] ∧
    (∀ it ∈ (delete_trip db v tid).2.items,
      ∃ t ∈ (delete_trip db v tid).2.trips, t.id = it.trip_id) := by
  have hd : delete_trip db v tid =
      (Resp.redirectToList v,
        ⟨db.trips.filter (fun t => !(t.id == tid)),
          db.items.filter (fun it => !(it.trip_id == tid)),
          db.next_trip_id, db.next_item_id⟩) := by
    unfold delete_trip
    rw [if_pos hv]
  refine ⟨?_, ?_, ?_, ?_⟩
  · show delete_trip db v tid = _
    rw [hd]
  · intro t ht
    rw [hd] at ht
    rw [List.mem_filter] at ht
    simpa using ht.2
  · rw [hd]
    show ((⟨db.trips.filter (fun t => !(t.id == tid)),
        db.items.filter (fun it => !(it.trip_id == tid)),
        db.next_trip_id, db.next_item_id⟩ : DBState).items.filter
          (fun it => it.trip_id == tid)).mergeSort itemLE = []
    have hnil : (db.items.filter (fun it => !(it.trip_id == tid))).filter
        (fun it => it.trip_id == tid) = [] := by
      rw [List.filter_filter]
      apply List.filter_eq_nil_iff.mpr
      intro it _
      by_cases h : it.trip_id = tid <;> simp [h]
    rw [hnil, List.mergeSort_nil]
  · intro it hit
    rw [hd] at hit
    rw [List.mem_filter] at hit
    obtain ⟨hmem, hne⟩ := hit
    obtain ⟨t, ht, hid⟩ := reachable_refIntact hreach it hmem
    refine ⟨t, ?_, hid⟩
    rw [hd, List.mem_filter]
    exact ⟨ht, by simpa [hid] using hne⟩

/-- C7 witness: deleting trip 1 of the reachable database wDB (one trip
with one item). -/
theorem delete_trip_cascades_witness :
    (versionOK 1 ∧ Reachable wDB) ∧
    (handle wDB (Req.deleteTrip 1 1) =
      (Resp.redirectToList 1, (delete_trip wDB 1 1).2) ∧
    (∀ t ∈ (delete_trip wDB 1 1).2.trips, ¬ t.id = 1) ∧
    listItemsByTrip (delete_trip wDB 1 1).2 1 = [] ∧
    (∀ it ∈ (delete_trip wDB 1 1).2.items,
      ∃ t ∈ (delete_trip wDB 1 1).2.trips, t.id = it.trip_id)) :=
  ⟨⟨by decide, wDB_reachable⟩,
    delete_trip_cascades wDB 1 1 (by decide) wDB_reachable⟩

/-! Section: claim C8: edit overwrites only name and days -/

/-- C8: a valid edit (existing trip, recognised version, non-empty trimmed
name, parsed days ≥ 1) succeeds with the redirect, leaves the items table
and both id counters untouched, and rewrites the trips table so that only
rows with the edited id change - and those only in their name and days
fields, keeping id and creation time.  No bound on the day
numbers of existing items is required, so the edit succeeds even when the new days value lies
below day numbers already in use. -/
theorem edit_trip_frame (db : DBState) (v : Int) (tid : Nat) (trip : Trip)
    (name days : Option String) (d : Int)
    (hv : versionOK v) (htrip : findTrip db tid = some trip)
    (hname : ¬ pyStrip (name.getD "") = "") (hd : formInt days = some d)
    (hdpos : 1 ≤ d) :
    (edit_trip db v tid name days).1 = Resp.redirectToTrip v tid ∧
    (edit_trip db v tid name days).2.items = db.items ∧
    (edit_trip db v tid name days).2.next_trip_id = db.next_trip_id ∧
    (edit_trip db v tid name days).2.next_item_id = db.next_item_id ∧
    (edit_trip db v tid name days).2.trips =
      db.trips.map (fun t =>
        if t.id = tid then ⟨t.id, pyStrip (name.getD ""), d, t.created_at⟩
        else t) ∧
    (∀ t ∈ db.trips, ¬ t.id = tid →
      t ∈ (edit_trip db v tid name days).2.trips) := by
  have hcond : ¬ (pyStrip (name.getD "") = "" ∨ d ≤ 0) := by
    intro hc
    rcases hc with hc | hc
    · exact hname hc
    · omega
  unfold edit_trip
  rw [if_pos hv, htrip, hd]
  simp only [if_neg hcond]
  refine ⟨by trivial, by trivial, by trivial, by trivial, by trivial, ?_⟩
  intro t ht hne
  have hmem := List.mem_map_of_mem
    (fun t => if t.id = tid then
      (⟨t.id, pyStrip (name.getD ""), d, t.created_at⟩ : Trip) else t) ht
  simp only [if_neg hne] at hmem
  exact hmem

/-- C8 witness: renaming the 2-day trip of wDB to Osaka with days "1",
below the day numbers already referenced - the edit still succeeds and
leaves the single item untouched. -/
theorem edit_trip_frame_witness :
    (versionOK 1 ∧ findTrip wDB 1 = some wTrip ∧
      ¬ pyStrip ((some "Osaka").getD "") = "" ∧
      formInt (some "1") = some 1 ∧ (1 : Int) ≤ 1) ∧
    ((edit_trip wDB 1 1 (some "Osaka") (some "1")).1 = Resp.redirectToTrip 1 1 ∧
    (edit_trip wDB 1 1 (some "Osaka") (some "1")).2.items = wDB.items ∧
    (edit_trip wDB 1 1 (some "Osaka") (some "1")).2.next_trip_id =
      wDB.next_trip_id ∧
    (edit_trip wDB 1 1 (some "Osaka") (some "1")).2.next_item_id =
      wDB.next_item_id ∧
    (edit_trip wDB 1 1 (some "Osaka") (some "1")).2.trips =
      wDB.trips.map (fun t =>
        if t.id = 1 then ⟨t.id, pyStrip ((some "Osaka").getD ""), 1, t.created_at⟩
        else t) ∧
    (∀ t ∈ wDB.trips, ¬ t.id = 1 →
      t ∈ (edit_trip wDB 1 1 (some "Osaka") (some "1")).2.trips)) :=
  ⟨⟨by decide, by decide, by decide, by decide, by decide⟩,
    edit_trip_frame wDB 1 1 wTrip (some "Osaka") (some "1") 1
      (by decide) (by decide) (by decide) (by decide) (by decide)⟩

/-! Section: claim C9: ordering of listings -/

/-- C9: the trips listing is a permutation of the trips table sorted by
creation time descending with ties broken by id descending (and it is
exactly what the list endpoint renders), and the items fetched for a trip
view are a permutation of the rows of that trip sorted by day number ascending
with id descending inside a day. -/
theorem listing_order :
    (∀ db : DBState,
      (listTripRows db).Perm db.trips ∧
      (listTripRows db).Pairwise (fun a b =>
        b.created_at < a.created_at ∨
          (a.created_at = b.created_at ∧ b.id ≤ a.id)) ∧
      list_trips db 1 = (Resp.listPage (listTripRows db), db)) ∧
    (∀ (db : DBState) (tid : Nat),
      (listItemsByTrip db tid).Perm
        (db.items.filter (fun it => it.trip_id == tid)) ∧
      (listItemsByTrip db tid).Pairwise (fun a b =>
        a.day_number < b.day_number ∨
          (a.day_number = b.day_number ∧ b.id ≤ a.id))) := by
  constructor
  · intro db
    refine ⟨List.mergeSort_perm db.trips tripLE, ?_, ?_⟩
    · exact (List.sorted_mergeSort tripLE_trans tripLE_total db.trips).imp
        (fun h => by simpa [tripLE] using h)
    · unfold list_trips
      rw [if_pos (by decide)]
  · intro db tid
    refine ⟨List.mergeSort_perm (tripItems db tid) itemLE, ?_⟩
    exact (List.sorted_mergeSort itemLE_trans itemLE_total (tripItems db tid)).imp
      (fun h => by simpa [itemLE] using h)

/-! Section: claim C10: the summary builder is not total -/

/-- C10: build_day_summaries is partial over reachable states: on the
reachable staleState (whose trip was edited down to 1 day while its item
keeps day number 3) it raises KeyError (none) and the trip view answers
with the unhandled-error response instead of rendering; and in general it
returns normally exactly when every item of the trip has its day number
within 1..days. -/
theorem build_day_summaries_partiality :
    (Reachable staleState ∧ staleTrip ∈ staleState.trips ∧
      build_day_summaries staleState staleTrip.id staleTrip.days = none ∧
      (handle staleState (Req.viewTrip 1 staleTrip.id)).1 = Resp.serverError) ∧
    (∀ (db : DBState) (tid : Nat) (days : Int),
      (build_day_summaries db tid days).isSome = true ↔
        ∀ it ∈ db.items, it.trip_id = tid →
          1 ≤ it.day_number ∧ it.day_number ≤ days) := by
  constructor
  · refine ⟨staleState_reachable, by decide, stale_build_none, ?_⟩
    show (view_trip staleState 1 1).1 = Resp.serverError
    unfold view_trip
    rw [if_pos (by decide)]
    have hft : findTrip staleState 1 = some staleTrip := by decide
    rw [hft]
    show (match build_day_summaries staleState 1 staleTrip.days with
      | none => (Resp.serverError, staleState)
      | some summaries =>
        (Resp.tripPage staleTrip summaries (calculate_trip_total staleState 1),
          staleState)).1 = Resp.serverError
    have hnone : build_day_summaries staleState 1 staleTrip.days = none :=
      stale_build_none
    rw [hnone]
  · exact build_isSome_iff
